import Mathlib

/-!
Verification of the federation load-testing harness
(`internal/federation/test/load_test.py`).

The harness is embedded shallowly:
* JSON values sent as request payloads are modelled by `JVal`.
* The HTTP transport is modelled by a `Transport` function: given the
  index of the call (the harness-wide call counter, modelling the mock
  transport's call-count) and the wire request actually issued
  (`session.get url` or `session.post url json=data`), it returns either
  an HTTP response (`TransportResult.ok status body elapsed`) or a raised
  transport exception (`TransportResult.exn msg elapsed`).  The measured
  wall-clock latency of the call, `time.time() - start_time`, is supplied
  by the transport as `elapsed`.
* The mutable tester object (`self.response_times` and the number of
  HTTP calls made so far) is threaded explicitly as `TesterState`.
* Python exceptions that escape a scenario (`json.loads` decode errors,
  `ZeroDivisionError`) are modelled with `Except PyError`.
-/

/-- JSON values built by the harness for request payloads. -/
inductive JVal where
  | str (s : String)
  | num (n : Int)
  | bool (b : Bool)
  | obj (fields : List (String × JVal))

/-- One request to dispatch: endpoint, HTTP method, optional JSON payload. -/
structure RequestSpec where
  endpoint : String
  method : String
  data : Option JVal

/-- The triple returned by `send_request`: `(status, body, elapsed)`.
`status_code = 0` is reserved for transport failures, in which case
`body` is the exception text `str(e)`. -/
structure RequestOutcome where
  status_code : Nat
  body : String
  latency : ℚ

/-- The wire-level request issued by `send_request`: either
`session.get(url)` or `session.post(url, json=data)` (the payload is
serialized as JSON with a `Content-Type: application/json` header). -/
inductive WireRequest where
  | get (url : String)
  | post (url : String) (jsonData : Option JVal)

/-- Result of one transport interaction: an HTTP response, or a raised
transport-level exception with message `msg`; `elapsed` is the measured
wall-clock time of the call. -/
inductive TransportResult where
  | ok (status : Nat) (body : String) (elapsed : ℚ)
  | exn (msg : String) (elapsed : ℚ)

/-- The (mock) SUT transport: call index ↦ wire request ↦ result. -/
def Transport := Nat → WireRequest → TransportResult

/-- Mutable state of the `FederationLoadTester` object:
`self.response_times` plus the number of HTTP calls issued so far
(the mock transport's call count). -/
structure TesterState where
  response_times : List ℚ
  callCount : Nat

/-- Default SUT base URL. -/
def BASE_URL : String := "http://localhost:8081"

/-- The wire request `send_request` issues for the given method:
`if method == "GET": session.get(url)` else `session.post(url, json=data)`.
Only the exact string `"GET"` selects a GET; every other method string
falls into the `else` (POST) branch. -/
def wireRequest (base endpoint method : String) (data : Option JVal) : WireRequest :=
  if method == "GET" then WireRequest.get (base ++ endpoint)
  else WireRequest.post (base ++ endpoint) data

/-- `send_request` (load_test.py lines 30-52): issue the wire request; on
success return `(status, body, elapsed)` and append `elapsed` to
`self.response_times`; on a raised transport exception catch it and
return `(0, str(e), elapsed)` — the state's `response_times` is only
updated on the success path, because the `append` sits inside the `try`
block before the `return`. -/
def send_request (tr : Transport) (base : String) (st : TesterState)
    (endpoint method : String) (data : Option JVal) : RequestOutcome × TesterState :=
  match tr st.callCount (wireRequest base endpoint method data) with
  | TransportResult.ok status body elapsed =>
      (⟨status, body, elapsed⟩, ⟨st.response_times ++ [elapsed], st.callCount + 1⟩)
  | TransportResult.exn msg elapsed =>
      (⟨0, msg, elapsed⟩, ⟨st.response_times, st.callCount + 1⟩)

/-- A transport whose every call raises (e.g. connection refused). -/
def trFail : Transport := fun _ _ => TransportResult.exn "Cannot connect to host" 1

/-- A transport whose every call answers HTTP 200. -/
def trOk : Transport := fun _ _ => TransportResult.ok 200 "ok" 1

/-- Claim C2: for every input, `send_request` returns an outcome triple and
never propagates a transport fault: whenever the transport raises with
message `msg` after `e` seconds, `send_request` catches the exception and
returns status code 0, body `msg` (the human-readable `str(e)`), and
latency `e`. -/
theorem c2_send_request_never_raises (tr : Transport) (base : String) (st : TesterState)
    (endpoint method : String) (data : Option JVal) (msg : String) (e : ℚ)
    (h : tr st.callCount (wireRequest base endpoint method data) = TransportResult.exn msg e) :
    send_request tr base st endpoint method data =
      (⟨0, msg, e⟩, ⟨st.response_times, st.callCount + 1⟩) := by
  simp [send_request, h]

/-- Witness for C2 at a concrete failing transport. -/
theorem c2_send_request_never_raises_witness :
    trFail 0 (wireRequest BASE_URL "/federation/inbox" "POST" none) =
      TransportResult.exn "Cannot connect to host" 1 ∧
    send_request trFail BASE_URL ⟨[], 0⟩ "/federation/inbox" "POST" none =
      (⟨0, "Cannot connect to host", 1⟩, ⟨[], 1⟩) :=
  ⟨rfl, c2_send_request_never_raises trFail BASE_URL ⟨[], 0⟩ "/federation/inbox" "POST"
    none "Cannot connect to host" 1 rfl⟩

/-- Claim C10: `"GET"` is the only method string `send_request` checks;
every other method string (for example `"PUT"`, `"get"`, or `""`) is
silently treated as POST with the payload serialized as JSON. -/
theorem c10_non_get_is_post (base endpoint method : String) (data : Option JVal)
    (h : method ≠ "GET") :
    wireRequest base endpoint method data = WireRequest.post (base ++ endpoint) data := by
  simp [wireRequest, h]

/-- Witness for C10 at the concrete method strings "PUT", "get" and "". -/
theorem c10_non_get_is_post_witness :
    ("PUT" ≠ "GET" ∧
      wireRequest BASE_URL "/federation/inbox" "PUT" none =
        WireRequest.post (BASE_URL ++ "/federation/inbox") none) ∧
    ("get" ≠ "GET" ∧
      wireRequest BASE_URL "/federation/inbox" "get" none =
        WireRequest.post (BASE_URL ++ "/federation/inbox") none) ∧
    ("" ≠ "GET" ∧
      wireRequest BASE_URL "/federation/inbox" "" none =
        WireRequest.post (BASE_URL ++ "/federation/inbox") none) :=
  ⟨⟨by decide, c10_non_get_is_post BASE_URL "/federation/inbox" "PUT" none (by decide)⟩,
   ⟨by decide, c10_non_get_is_post BASE_URL "/federation/inbox" "get" none (by decide)⟩,
   ⟨by decide, c10_non_get_is_post BASE_URL "/federation/inbox" "" none (by decide)⟩⟩

/-- `asyncio.gather(*tasks)`: dispatch one `send_request` per spec and
collect all outcomes at the barrier.  One `RequestOutcome` is produced
per dispatched spec — transport failures included, since `send_request`
never raises. -/
def gather (tr : Transport) (base : String) :
    TesterState → List RequestSpec → List RequestOutcome × TesterState
  | st, [] => ([], st)
  | st, spec :: rest =>
      let p := send_request tr base st spec.endpoint spec.method spec.data
      let q := gather tr base p.2 rest
      (p.1 :: q.1, q.2)

/-- `status_codes[status] += 1` on a `defaultdict(int)`. -/
def bumpCount (h : Nat → Nat) (k : Nat) : Nat → Nat :=
  fun s => if s = k then h s + 1 else h s

/-- The histogram loop of `test_rate_limiting` (lines 78-79):
`for status, _, _ in results: status_codes[status] += 1`, starting from
the empty `defaultdict(int)`. -/
def buildHistogram (outs : List RequestOutcome) : Nat → Nat :=
  outs.foldl (fun h o => bumpCount h o.status_code) (fun _ => 0)

/-- The value-sum of the histogram: the histogram's counts summed over
the distinct status codes that occur in the batch. -/
def histogramValueSum (outs : List RequestOutcome) : Nat :=
  (((outs.map (fun o => o.status_code)).dedup).map (buildHistogram outs)).sum

theorem gather_length (tr : Transport) (base : String) :
    ∀ (specs : List RequestSpec) (st : TesterState),
      (gather tr base st specs).1.length = specs.length := by
  intro specs
  induction specs with
  | nil => intro st; rfl
  | cons spec rest ih => intro st; simp [gather, ih]

theorem gather_callCount (tr : Transport) (base : String) :
    ∀ (specs : List RequestSpec) (st : TesterState),
      (gather tr base st specs).2.callCount = st.callCount + specs.length := by
  intro specs
  induction specs with
  | nil => intro st; rfl
  | cons spec rest ih =>
      intro st
      have hsend : ∀ st' : TesterState,
          (send_request tr base st' spec.endpoint spec.method spec.data).2.callCount =
            st'.callCount + 1 := by
        intro st'
        unfold send_request
        cases tr st'.callCount (wireRequest base spec.endpoint spec.method spec.data) <;> rfl
      simp [gather, ih, hsend]
      omega

theorem buildHistogram_foldl_eq (s : Nat) :
    ∀ (outs : List RequestOutcome) (acc : Nat → Nat),
      outs.foldl (fun h o => bumpCount h o.status_code) acc s =
        acc s + (outs.map (fun o => o.status_code)).count s := by
  intro outs
  induction outs with
  | nil => intro acc; simp
  | cons o rest ih =>
      intro acc
      simp only [List.foldl_cons, List.map_cons, List.count_cons]
      rw [ih]
      by_cases hs : s = o.status_code <;> simp [bumpCount, hs] <;> omega

theorem buildHistogram_eq_count (outs : List RequestOutcome) (s : Nat) :
    buildHistogram outs s = (outs.map (fun o => o.status_code)).count s := by
  simpa using buildHistogram_foldl_eq s outs (fun _ => 0)

theorem histogramValueSum_eq_length (outs : List RequestOutcome) :
    histogramValueSum outs = outs.length := by
  set l : List Nat := outs.map (fun o => o.status_code) with hl
  have hcongr : l.dedup.map (buildHistogram outs) = l.dedup.map (fun s => l.count s) := by
    apply List.map_congr_left
    intro s _
    simpa [hl] using buildHistogram_eq_count outs s
  have hfin : l.dedup.toFinset.sum (fun s => l.count s) =
      (l.dedup.map (fun s => l.count s)).sum :=
    List.sum_toFinset _ (List.nodup_dedup l)
  have hlen : l.length = outs.length := by simp [hl]
  calc histogramValueSum outs
      = (l.dedup.map (fun s => l.count s)).sum := by
        rw [histogramValueSum, ← hl, hcongr]
    _ = l.dedup.toFinset.sum (fun s => l.count s) := hfin.symm
    _ = l.toFinset.sum (fun s => l.count s) := by
        apply Finset.sum_congr _ (fun _ _ => rfl)
        ext a
        simp
    _ = l.length := List.sum_toFinset_count_eq_length l
    _ = outs.length := hlen

/-- Payload built per iteration of the `test_rate_limiting` loop. -/
def rateLimitData (i : Nat) : JVal :=
  JVal.obj [("activity_type", JVal.str "Test"),
            ("actor", JVal.str ("loadtest_" ++ toString i)),
            ("actor_server", JVal.str "https://loadtest.com"),
            ("payload", JVal.obj [("test", JVal.bool true)])]

/-- The batch of specs `test_rate_limiting` dispatches:
`for i in range(num_requests)`, POST to `/federation/inbox`. -/
def rateLimitSpecs (n : Nat) : List RequestSpec :=
  (List.range n).map (fun i => ⟨"/federation/inbox", "POST", some (rateLimitData i)⟩)

/-- Rendered result of `test_rate_limiting`: the status-code histogram
and whether the "rate limiting may not be enforced" warning was printed. -/
structure RateLimitReport where
  histogram : Nat → Nat
  warning : Bool

/-- `test_rate_limiting` (lines 54-93): dispatch `num_requests` concurrent
POSTs to `/federation/inbox`, build the status-code histogram, and print
the warning exactly when `status_codes[429] > 0` is false. -/
def test_rate_limiting (tr : Transport) (base : String) (num_requests : Nat)
    (st : TesterState) : RateLimitReport × TesterState :=
  let p := gather tr base st (rateLimitSpecs num_requests)
  let status_codes := buildHistogram p.1
  ({ histogram := status_codes,
     warning := if 0 < status_codes 429 then false else true }, p.2)

theorem rateLimitSpecs_length (n : Nat) : (rateLimitSpecs n).length = n := by
  simp [rateLimitSpecs]

/-- Claim C1: every batch run collects exactly one outcome per dispatched
spec — `gather` returns as many outcomes as specs, transport failures
included — and the status-code histogram built from those outcomes has
value-sum equal to the batch size; in particular the rate-limit probe
dispatching `n` specs obtains a histogram whose value-sum is `n`. -/
theorem c1_batch_size_invariant (tr : Transport) (base : String) (st : TesterState)
    (specs : List RequestSpec) (n : Nat) :
    (gather tr base st specs).1.length = specs.length ∧
    histogramValueSum (gather tr base st specs).1 = specs.length ∧
    (rateLimitSpecs n).length = n ∧
    histogramValueSum (gather tr base st (rateLimitSpecs n)).1 = n := by
  refine ⟨gather_length tr base specs st, ?_, rateLimitSpecs_length n, ?_⟩
  · rw [histogramValueSum_eq_length]
    exact gather_length tr base specs st
  · rw [histogramValueSum_eq_length, gather_length tr base (rateLimitSpecs n) st]
    exact rateLimitSpecs_length n

/-- Claim C6: the rate-limit probe prints the "rate limiting may not be
enforced" warning exactly when no outcome in the batch carries status 429;
when at least one outcome is a 429 it prints the success message and no
warning. -/
theorem c6_warning_iff_no_429 (tr : Transport) (base : String) (n : Nat)
    (st : TesterState) :
    (test_rate_limiting tr base n st).1.warning = true ↔
      ∀ o ∈ (gather tr base st (rateLimitSpecs n)).1, o.status_code ≠ 429 := by
  unfold test_rate_limiting
  set outs := (gather tr base st (rateLimitSpecs n)).1 with houts
  have hcount : buildHistogram outs 429 =
      (outs.map (fun o => o.status_code)).count 429 := buildHistogram_eq_count outs 429
  constructor
  · intro hw o ho hstatus
    by_cases hpos : 0 < buildHistogram outs 429
    · simp [hpos] at hw
    · have : (429 : Nat) ∈ outs.map (fun o => o.status_code) :=
        List.mem_map.mpr ⟨o, ho, hstatus⟩
      have := List.count_pos_iff.mpr this
      omega
  · intro hnone
    have hnotmem : (429 : Nat) ∉ outs.map (fun o => o.status_code) := by
      intro hmem
      obtain ⟨o, ho, hstatus⟩ := List.mem_map.mp hmem
      exact hnone o ho hstatus
    have hzero : buildHistogram outs 429 = 0 := by
      rw [hcount]
      exact List.count_eq_zero.mpr hnotmem
    simp [hzero]

/-- Python exceptions that can escape a scenario. -/
inductive PyError where
  | zeroDivision
  | jsonDecodeError

/-- Payload built per iteration of the `test_concurrent_inbox` loop;
`ts i` is the string `datetime.now().isoformat()` observed at iteration
`i`, supplied by the environment. -/
def concurrentData (ts : Nat → String) (i : Nat) : JVal :=
  JVal.obj [("activity_type", JVal.str "Post"),
            ("actor", JVal.str ("user_" ++ toString i)),
            ("actor_server", JVal.str ("https://server" ++ toString (i % 10) ++ ".com")),
            ("payload", JVal.obj [("content", JVal.str ("Test post " ++ toString i)),
                                  ("timestamp", JVal.str (ts i))])]

/-- The batch of specs `test_concurrent_inbox` dispatches. -/
def concurrentSpecs (ts : Nat → String) (n : Nat) : List RequestSpec :=
  (List.range n).map (fun i => ⟨"/federation/inbox", "POST", some (concurrentData ts i)⟩)

/-- Rendered result of `test_concurrent_inbox`. -/
structure ConcurrentReport where
  total : Nat
  successful : Nat
  failed : Nat
  totalTime : ℚ
  avgResponseTime : ℚ
  throughput : ℚ

/-- `test_concurrent_inbox` (lines 95-133): dispatch `num_concurrent`
concurrent POSTs; `wall` is the measured wall-clock span
`elapsed = time.time() - start` around the batch.  The average response
time divides by `len(results)` unconditionally (line 125), so an empty
batch raises `ZeroDivisionError`; the throughput print divides
`num_concurrent` by `elapsed` (line 133), raising if the span is zero. -/
def test_concurrent_inbox (tr : Transport) (base : String) (ts : Nat → String)
    (wall : ℚ) (num_concurrent : Nat) (st : TesterState) :
    Except PyError ConcurrentReport × TesterState :=
  let p := gather tr base st (concurrentSpecs ts num_concurrent)
  let results := p.1
  if results.length = 0 then (Except.error PyError.zeroDivision, p.2)
  else
    let success_count := (results.filter (fun o => o.status_code == 200)).length
    let avg := (results.map (fun o => o.latency)).sum / (results.length : ℚ)
    if wall = 0 then (Except.error PyError.zeroDivision, p.2)
    else
      (Except.ok { total := num_concurrent,
                   successful := success_count,
                   failed := num_concurrent - success_count,
                   totalTime := wall,
                   avgResponseTime := avg,
                   throughput := (num_concurrent : ℚ) / wall }, p.2)

theorem concurrentSpecs_length (ts : Nat → String) (n : Nat) :
    (concurrentSpecs ts n).length = n := by
  simp [concurrentSpecs]

/-- A fixed environment-supplied timestamp function. -/
def ts0 : Nat → String := fun _ => "2025-01-01T00:00:00"

/-- Claim C9: the concurrent-inbox probe's throughput equals the batch
size divided by the wall-clock span of the batch; with a nonzero span
and a nonempty batch the probe returns a report whose `throughput` field
is `num_concurrent / wall`, so 50 requests over a span of 2.0 seconds
yield 25.0 requests per second. -/
theorem c9_throughput (tr : Transport) (base : String) (ts : Nat → String)
    (wall : ℚ) (n : Nat) (st : TesterState) (hwall : wall ≠ 0) (hn : 0 < n) :
    ∃ r : ConcurrentReport,
      (test_concurrent_inbox tr base ts wall n st).1 = Except.ok r ∧
      r.throughput = (n : ℚ) / wall ∧ r.total = n ∧ r.totalTime = wall := by
  have hlen : (gather tr base st (concurrentSpecs ts n)).1.length = n := by
    rw [gather_length]
    exact concurrentSpecs_length ts n
  have hne : ¬ ((gather tr base st (concurrentSpecs ts n)).1.length = 0) := by
    rw [hlen]
    omega
  simp only [test_concurrent_inbox, if_neg hne, if_neg hwall]
  exact ⟨_, rfl, rfl, rfl, rfl⟩

/-- Witness for C9: a batch of 50 requests over a 2.0-second span has
throughput 25.0 requests per second. -/
theorem c9_throughput_witness :
    (2 : ℚ) ≠ 0 ∧ 0 < 50 ∧
    ∃ r : ConcurrentReport,
      (test_concurrent_inbox trOk BASE_URL ts0 2 50 ⟨[], 0⟩).1 = Except.ok r ∧
      r.throughput = 25 := by
  refine ⟨by norm_num, by norm_num, ?_⟩
  obtain ⟨r, hok, hthr, -, -⟩ :=
    c9_throughput trOk BASE_URL ts0 2 50 ⟨[], 0⟩ (by norm_num) (by norm_num)
  exact ⟨r, hok, by rw [hthr]; norm_num⟩

/-- The final cross-scenario summary block of `run_all_tests`
(lines 239-247): statistics over `self.response_times`, computed only
under the guard `if self.response_times:` — with an empty list the block
is skipped and no statistic (hence no division) is produced. -/
structure SummaryStats where
  total : Nat
  avg : ℚ
  minRT : ℚ
  maxRT : ℚ

/-- Compute the guarded summary: `none` when `response_times` is empty. -/
def summaryStats : List ℚ → Option SummaryStats
  | [] => none
  | x :: xs =>
      some { total := (x :: xs).length,
             avg := (x :: xs).sum / ((x :: xs).length : ℚ),
             minRT := xs.foldl min x,
             maxRT := xs.foldl max x }

/-- Counterexample to C8: the concurrent-inbox probe divides by
`len(results)` unconditionally (line 125), so a batch of size zero
raises `ZeroDivisionError` even against a healthy transport — an
aggregation step does divide by the collected-latency count when that
count is zero. -/
theorem c8_counterexample :
    (test_concurrent_inbox trOk BASE_URL ts0 2 0 ⟨[], 0⟩).1 =
      Except.error PyError.zeroDivision := rfl

/-- Claim C8 (amended): the final cross-scenario summary is guarded —
with no recorded latencies it reports statistics as absent (`none`) and
performs no division, and with at least one latency it produces
statistics — but the concurrent-inbox probe's per-batch aggregation is
not: a batch of size zero makes it divide by `len(results) = 0` and
raise `ZeroDivisionError`. -/
theorem c8_empty_batch (tr : Transport) (base : String) (ts : Nat → String)
    (wall : ℚ) (st : TesterState) (l : List ℚ) (hl : l ≠ []) :
    (test_concurrent_inbox tr base ts wall 0 st).1 = Except.error PyError.zeroDivision ∧
    summaryStats [] = none ∧
    ∃ s : SummaryStats, summaryStats l = some s := by
  refine ⟨?_, rfl, ?_⟩
  · have hlen : (gather tr base st (concurrentSpecs ts 0)).1.length = 0 := by
      rw [gather_length]
      exact concurrentSpecs_length ts 0
    simp [test_concurrent_inbox, hlen]
  · cases l with
    | nil => exact absurd rfl hl
    | cons x xs => exact ⟨_, rfl⟩

/-- Witness for C8 (amended) at a concrete transport and latency list. -/
theorem c8_empty_batch_witness :
    ([ (1 : ℚ) ] ≠ []) ∧
    ((test_concurrent_inbox trOk BASE_URL ts0 2 0 ⟨[], 0⟩).1 =
        Except.error PyError.zeroDivision ∧
      summaryStats [] = none ∧
      ∃ s : SummaryStats, summaryStats [(1 : ℚ)] = some s) :=
  ⟨by simp, c8_empty_batch trOk BASE_URL ts0 2 ⟨[], 0⟩ [(1 : ℚ)] (by simp)⟩

/-- Counterexample to C3: a transport-failed request's latency is not
appended to the suite-wide `self.response_times` list — the `append`
sits inside the `try` block, which the exception skips.  Here a failing
request measured at 1 second leaves `response_times` empty instead of
appending its latency. -/
theorem c3_counterexample :
    ¬ ((send_request trFail BASE_URL ⟨[], 0⟩ "/federation/inbox" "POST" none).2.response_times
        = [] ++ [(send_request trFail BASE_URL ⟨[], 0⟩ "/federation/inbox" "POST"
            none).1.latency]) := by
  simp [send_request, trFail]

/-- Claim C3 (amended): a transport-failed request's measured latency is
returned in its `RequestOutcome` (and is therefore visible to per-batch
statistics computed from the gathered results), but it is not appended
to the suite-wide `response_times` list: on failure that list is left
unchanged, while on success the measured latency is appended — so the
final cross-scenario summary ranges over successful requests only. -/
theorem c3_failure_latency (tr : Transport) (base : String) (st : TesterState)
    (endpoint method : String) (data : Option JVal) :
    (∀ msg e, tr st.callCount (wireRequest base endpoint method data) =
        TransportResult.exn msg e →
      (send_request tr base st endpoint method data).1.latency = e ∧
      (send_request tr base st endpoint method data).2.response_times =
        st.response_times) ∧
    (∀ s b e, tr st.callCount (wireRequest base endpoint method data) =
        TransportResult.ok s b e →
      (send_request tr base st endpoint method data).2.response_times =
        st.response_times ++ [e]) := by
  constructor
  · intro msg e h
    simp [send_request, h]
  · intro s b e h
    simp [send_request, h]

/-- Witness for C3 (amended) at concrete failing and succeeding transports. -/
theorem c3_failure_latency_witness :
    (trFail 0 (wireRequest BASE_URL "/federation/inbox" "POST" none) =
        TransportResult.exn "Cannot connect to host" 1 ∧
      ((send_request trFail BASE_URL ⟨[], 0⟩ "/federation/inbox" "POST" none).1.latency = 1 ∧
       (send_request trFail BASE_URL ⟨[], 0⟩ "/federation/inbox" "POST"
          none).2.response_times = [])) ∧
    (trOk 0 (wireRequest BASE_URL "/federation/inbox" "POST" none) =
        TransportResult.ok 200 "ok" 1 ∧
      (send_request trOk BASE_URL ⟨[], 0⟩ "/federation/inbox" "POST"
          none).2.response_times = [] ++ [(1 : ℚ)]) :=
  ⟨⟨rfl, (c3_failure_latency trFail BASE_URL ⟨[], 0⟩ "/federation/inbox" "POST" none).1
      "Cannot connect to host" 1 rfl⟩,
   ⟨rfl, (c3_failure_latency trOk BASE_URL ⟨[], 0⟩ "/federation/inbox" "POST" none).2
      200 "ok" 1 rfl⟩⟩

/-- A parsed health-endpoint JSON dict, restricted to the fields the
harness reads.  `nonempty` models Python dict truthiness (`{}` is falsy);
each field is `none` when the key is absent from the dict. -/
structure HealthJson where
  nonempty : Bool
  status? : Option String
  total_messages? : Option Int
  average_latency_ms? : Option ℚ

/-- The empty dict `{}` used when the health fetch returned non-200. -/
def HealthJson.empty : HealthJson := ⟨false, none, none, none⟩

/-- `health = json.loads(body) if status == 200 else {}` (lines 173, 193):
`parse` models `json.loads` restricted to health dicts, returning `none`
when the body is not valid JSON — in which case `json.loads` raises a
decode error that nothing in the harness catches. -/
def loadHealth (parse : String → Option HealthJson) (status : Nat) (body : String) :
    Except PyError HealthJson :=
  if status == 200 then
    match parse body with
    | some h => Except.ok h
    | none => Except.error PyError.jsonDecodeError
  else Except.ok HealthJson.empty

/-- The metrics block rendered by `test_health_monitoring`
(lines 196-203): under `if health1 and health2`, read
`health2.get('status', 'unknown')`, the message delta
`health2.get('total_messages', 0) - health1.get('total_messages', 0)`,
and `health2.get('average_latency_ms', 0)`. -/
structure HealthMetrics where
  status : String
  messagesProcessed : Int
  avgLatency : ℚ

/-- Compute the rendered health metrics; `none` models the
`Failed to retrieve health metrics` branch taken when either snapshot
dict is falsy. -/
def healthMetrics (health1 health2 : HealthJson) : Option HealthMetrics :=
  if health1.nonempty && health2.nonempty then
    some { status := health2.status?.getD "unknown",
           messagesProcessed :=
             health2.total_messages?.getD 0 - health1.total_messages?.getD 0,
           avgLatency := health2.average_latency_ms?.getD 0 }
  else none

/-- Payload built per iteration of the `test_health_monitoring` load loop. -/
def healthLoadData (i : Nat) : JVal :=
  JVal.obj [("activity_type", JVal.str "Like"),
            ("actor", JVal.str ("loadtest_" ++ toString i)),
            ("actor_server", JVal.str "https://loadtest.com"),
            ("payload", JVal.obj [])]

/-- The batch of 100 specs dispatched between the two health snapshots. -/
def healthLoadSpecs : List RequestSpec :=
  (List.range 100).map (fun i => ⟨"/federation/inbox", "POST", some (healthLoadData i)⟩)

/-- `test_health_monitoring` (lines 164-205): first health snapshot, a
100-request load batch, a pause, a second snapshot, then the rendered
metrics.  A `json.loads` decode error propagates as `Except.error`. -/
def test_health_monitoring (tr : Transport) (base : String)
    (parse : String → Option HealthJson) (st : TesterState) :
    Except PyError (Option HealthMetrics) × TesterState :=
  let p1 := send_request tr base st "/federation/health" "GET" none
  match loadHealth parse p1.1.status_code p1.1.body with
  | Except.error e => (Except.error e, p1.2)
  | Except.ok health1 =>
      let p2 := gather tr base p1.2 healthLoadSpecs
      let p3 := send_request tr base p2.2 "/federation/health" "GET" none
      match loadHealth parse p3.1.status_code p3.1.body with
      | Except.error e => (Except.error e, p3.2)
      | Except.ok health2 => (Except.ok (healthMetrics health1 health2), p3.2)

/-- A `json.loads` model that accepts no body. -/
def parseNone : String → Option HealthJson := fun _ => none

/-- A transport answering every call with HTTP 200 and a non-JSON body. -/
def trHtml : Transport := fun _ _ => TransportResult.ok 200 "<html>not json</html>" 1

/-- Counterexample to C4: a health fetch returning HTTP 200 with a body
that is not valid JSON makes `json.loads` raise, and the probe
propagates the decode error instead of applying defaults — a malformed
health response is fatal. -/
theorem c4_counterexample :
    (test_health_monitoring trHtml BASE_URL parseNone ⟨[], 0⟩).1 =
      Except.error PyError.jsonDecodeError := rfl

/-- Claim C4 (amended): a health fetch whose status is not 200 (including
a transport failure, status 0) yields the empty snapshot `{}` without
raising, and fields missing from a parsed snapshot are defaulted via
`get`; but a fetch returning 200 with a body that is not valid JSON
raises a JSON decode error that propagates out of the probe — that case
is fatal, not defaulted. -/
theorem c4_malformed_health (parse : String → Option HealthJson) (status : Nat)
    (body : String) :
    (status ≠ 200 → loadHealth parse status body = Except.ok HealthJson.empty) ∧
    (∀ h, parse body = some h → status = 200 →
      loadHealth parse status body = Except.ok h) ∧
    (parse body = none → status = 200 →
      loadHealth parse status body = Except.error PyError.jsonDecodeError) ∧
    (∀ tr : Transport, ∀ st : TesterState, ∀ b : String, ∀ e : ℚ,
      tr st.callCount (wireRequest BASE_URL "/federation/health" "GET" none) =
        TransportResult.ok 200 b e →
      parse b = none →
      (test_health_monitoring tr BASE_URL parse st).1 =
        Except.error PyError.jsonDecodeError) := by
  refine ⟨?_, ?_, ?_, ?_⟩
  · intro hne
    simp [loadHealth, hne]
  · intro h hp hs
    simp [loadHealth, hs, hp]
  · intro hp hs
    simp [loadHealth, hs, hp]
  · intro tr st b e htr hp
    simp [test_health_monitoring, send_request, htr, loadHealth, hp]

/-- Witness for C4 (amended) at concrete statuses, bodies and transport. -/
theorem c4_malformed_health_witness :
    ((0 : Nat) ≠ 200 ∧ loadHealth parseNone 0 "conn refused" = Except.ok HealthJson.empty) ∧
    (parseNone "<html>not json</html>" = none ∧
      loadHealth parseNone 200 "<html>not json</html>" =
        Except.error PyError.jsonDecodeError) ∧
    (trHtml 0 (wireRequest BASE_URL "/federation/health" "GET" none) =
        TransportResult.ok 200 "<html>not json</html>" 1 ∧
      (test_health_monitoring trHtml BASE_URL parseNone ⟨[], 0⟩).1 =
        Except.error PyError.jsonDecodeError) :=
  ⟨⟨by decide, (c4_malformed_health parseNone 0 "conn refused").1 (by decide)⟩,
   ⟨rfl, (c4_malformed_health parseNone 200 "<html>not json</html>").2.2.1 rfl rfl⟩,
   ⟨rfl, (c4_malformed_health parseNone 200 "x").2.2.2 trHtml ⟨[], 0⟩
      "<html>not json</html>" 1 rfl rfl⟩⟩

/-- Claim C7: for any two truthy health snapshots the rendered message
delta is `snapshot2.total_messages - snapshot1.total_messages` with a
missing `total_messages` substituted by 0, the rendered status is
`snapshot2`'s status with missing substituted by the default string
"unknown", and the rendered latency defaults to 0 — in particular
snapshots with `total_messages` 10 and 110 yield a delta of 100. -/
theorem c7_health_delta (health1 health2 : HealthJson)
    (h1 : health1.nonempty = true) (h2 : health2.nonempty = true) :
    healthMetrics health1 health2 =
      some { status := health2.status?.getD "unknown",
             messagesProcessed :=
               health2.total_messages?.getD 0 - health1.total_messages?.getD 0,
             avgLatency := health2.average_latency_ms?.getD 0 } ∧
    (∀ m1 m2 : Int, health1.total_messages? = some m1 → health2.total_messages? = some m2 →
      ∃ m : HealthMetrics, healthMetrics health1 health2 = some m ∧
        m.messagesProcessed = m2 - m1) := by
  constructor
  · simp [healthMetrics, h1, h2]
  · intro m1 m2 hm1 hm2
    have heq : healthMetrics health1 health2 =
        some { status := health2.status?.getD "unknown",
               messagesProcessed :=
                 health2.total_messages?.getD 0 - health1.total_messages?.getD 0,
               avgLatency := health2.average_latency_ms?.getD 0 } := by
      simp [healthMetrics, h1, h2]
    exact ⟨_, heq, by simp [hm1, hm2]⟩

/-- Witness for C7: snapshots with 10 and 110 total messages give a
message delta of 100. -/
theorem c7_health_delta_witness :
    (⟨true, some "healthy", some 10, some 5⟩ : HealthJson).nonempty = true ∧
    (⟨true, some "healthy", some 110, some 7⟩ : HealthJson).nonempty = true ∧
    ∃ m : HealthMetrics,
      healthMetrics ⟨true, some "healthy", some 10, some 5⟩
          ⟨true, some "healthy", some 110, some 7⟩ = some m ∧
      m.messagesProcessed = 100 := by
  refine ⟨rfl, rfl, ?_⟩
  obtain ⟨m, hm, hd⟩ :=
    (c7_health_delta ⟨true, some "healthy", some 10, some 5⟩
      ⟨true, some "healthy", some 110, some 7⟩ rfl rfl).2 10 110 rfl rfl
  exact ⟨m, hm, by rw [hd]; norm_num⟩

/-- Payload built per iteration of the `test_retry_queue_simulation` loop. -/
def retryData (i : Nat) : JVal :=
  JVal.obj [("activity_type", JVal.str "Follow"),
            ("actor_id", JVal.str ("user" ++ toString i ++ "@localhost")),
            ("target_server", JVal.str ("https://fake-server-" ++ toString i ++ ".invalid")),
            ("payload", JVal.obj [("test", JVal.bool true)])]

/-- The fixed batch of 10 specs `test_retry_queue_simulation` dispatches
to `/federation/send`. -/
def retrySpecs : List RequestSpec :=
  (List.range 10).map (fun i => ⟨"/federation/send", "POST", some (retryData i)⟩)

/-- Rendered result of `test_retry_queue_simulation`: the count of
outcomes whose status is in `[200, 201]` (acceptance, not delivery). -/
structure RetryReport where
  queued : Nat

/-- `test_retry_queue_simulation` (lines 135-162). -/
def test_retry_queue_simulation (tr : Transport) (base : String) (st : TesterState) :
    RetryReport × TesterState :=
  let p := gather tr base st retrySpecs
  ({ queued := (p.1.filter
      (fun o => o.status_code == 200 || o.status_code == 201)).length }, p.2)

/-- The suite's rendered output: `aborted` is the fail-fast branch of
`run_all_tests`; each scenario field is `some` exactly when that
scenario ran; `summary` is the guarded final statistics block. -/
structure SuiteReport where
  aborted : Bool
  health : Option (Option HealthMetrics)
  concurrent : Option ConcurrentReport
  rate : Option RateLimitReport
  retry : Option RetryReport
  summary : Option SummaryStats

/-- `run_all_tests` (lines 207-249): liveness check against
`/federation/health`; on any non-200 status (a transport failure gives
status 0) return immediately without dispatching any scenario; otherwise
run health-monitoring, concurrent-inbox (50), rate-limiting (150) and
retry-queue in that order, then render the guarded final summary over
`self.response_times`.  A decode error raised inside the health probe
propagates (the `except` around the liveness check cannot catch it —
`send_request` itself never raises). -/
def run_all_tests (tr : Transport) (base : String) (ts : Nat → String) (wall : ℚ)
    (parse : String → Option HealthJson) (st : TesterState) :
    Except PyError SuiteReport × TesterState :=
  let p := send_request tr base st "/federation/health" "GET" none
  if p.1.status_code == 200 then
    match test_health_monitoring tr base parse p.2 with
    | (Except.error e, st2) => (Except.error e, st2)
    | (Except.ok hm, st2) =>
        match test_concurrent_inbox tr base ts wall 50 st2 with
        | (Except.error e, st3) => (Except.error e, st3)
        | (Except.ok cr, st3) =>
            let q := test_rate_limiting tr base 150 st3
            let r := test_retry_queue_simulation tr base q.2
            (Except.ok { aborted := false, health := some hm, concurrent := some cr,
                         rate := some q.1, retry := some r.1,
                         summary := summaryStats r.2.response_times }, r.2)
  else
    (Except.ok { aborted := true, health := none, concurrent := none, rate := none,
                 retry := none, summary := none }, p.2)

/-- Claim C5: if the initial liveness check against `/federation/health`
returns any status other than 200 — including status 0 for a transport
failure — `run_all_tests` returns before any scenario executes: the
report is the aborted one with every scenario section absent, and the
mock transport's call count shows exactly one request (the liveness
check itself) was ever dispatched. -/
theorem c5_fail_fast (tr : Transport) (base : String) (ts : Nat → String) (wall : ℚ)
    (parse : String → Option HealthJson) (st : TesterState)
    (h : (send_request tr base st "/federation/health" "GET" none).1.status_code ≠ 200) :
    (run_all_tests tr base ts wall parse st).1 =
      Except.ok { aborted := true, health := none, concurrent := none, rate := none,
                  retry := none, summary := none } ∧
    (run_all_tests tr base ts wall parse st).2.callCount = st.callCount + 1 := by
  have hsend : (send_request tr base st "/federation/health" "GET" none).2.callCount =
      st.callCount + 1 := by
    unfold send_request
    cases tr st.callCount (wireRequest base "/federation/health" "GET" none) <;> rfl
  have hbeq : ((send_request tr base st "/federation/health" "GET"
      none).1.status_code == 200) = false := by
    simpa using h
  constructor
  · simp only [run_all_tests, hbeq, Bool.false_eq_true, if_false]
  · simp only [run_all_tests, hbeq, Bool.false_eq_true, if_false]
    exact hsend

/-- Witness for C5: against a transport that refuses every connection
the liveness check observes status 0, and the suite dispatches exactly
one request. -/
theorem c5_fail_fast_witness :
    (send_request trFail BASE_URL ⟨[], 0⟩ "/federation/health" "GET"
        none).1.status_code ≠ 200 ∧
    ((run_all_tests trFail BASE_URL ts0 2 parseNone ⟨[], 0⟩).1 =
        Except.ok { aborted := true, health := none, concurrent := none, rate := none,
                    retry := none, summary := none } ∧
      (run_all_tests trFail BASE_URL ts0 2 parseNone ⟨[], 0⟩).2.callCount = 0 + 1) :=
  ⟨by decide, c5_fail_fast trFail BASE_URL ts0 2 parseNone ⟨[], 0⟩ (by decide)⟩
